import Mathlib

/-!
Verification of the progression engine of the solo-leveling web application.

The development shallowly embeds the TypeScript sources, chiefly
src/stores/missionsStore.ts (reward calculator, difficulty selector,
schedule availability gate, mission generation, mission completion), the
profile store (calculateLevel, addXP), the objectives store
(updateObjective, incrementProgress) and the completion handler of
components/MissionsDisplay.tsx. JavaScript numbers are modelled as exact
arithmetic: integer quantities as Nat or Int, fractional constants as Rat.
Wall-clock instants are modelled by the two observations the code makes of
a Date value: the epoch-millisecond timestamp and the local hour-of-day.
Calls to Math.random are modelled by explicit choice parameters. Record
fields that the embedded operations never touch, such as titles on stored
missions, are omitted from the state types.
-/

namespace SoloLeveling

/-- Mission difficulty tiers. -/
inductive Difficulty
  | easy
  | medium
  | hard
  deriving DecidableEq

/-- Mission categories used by the daily generator. -/
inductive Category
  | sport
  | studies
  | routine
  deriving DecidableEq

/-- The three profile stats, from the stats field of UserProfile. -/
structure Stats where
  strength : Nat
  intelligence : Nat
  motivation : Nat
  deriving DecidableEq

/-- The profile fields touched by the progression engine. -/
structure UserProfile where
  level : Nat
  xp : Nat
  stats : Stats
  deriving DecidableEq

/-- Leveling function from the profile store:
Math.floor(Math.sqrt(xp / 100)) + 1. For a natural xp this equals the
integer square root of xp / 100, which calculateLevel_correct proves
against the real-valued source formula. -/
def calculateLevel (xp : Nat) : Nat :=
  Nat.sqrt (xp / 100) + 1

/-- Difficulty multiplier switch from missionsStore. -/
def getDifficultyMultiplier (difficulty : Difficulty) : ℚ :=
  match difficulty with
  | .easy => 1
  | .medium => 1.5
  | .hard => 2

/-- The baseXP record literal inside getXPReward. -/
def baseXP (difficulty : Difficulty) : ℚ :=
  match difficulty with
  | .easy => 10
  | .medium => 26
  | .hard => 51

/-- Reward calculator from missionsStore:
Math.floor(baseXP[difficulty] * levelMultiplier * difficultyMultiplier)
with levelMultiplier = 1 + (userLevel - 1) * 0.1. -/
def getXPReward (difficulty : Difficulty) (userLevel : Int) : Int :=
  let levelMultiplier : ℚ := 1 + ((userLevel : ℚ) - 1) * 0.1
  let difficultyMultiplier := getDifficultyMultiplier difficulty
  Int.floor (baseXP difficulty * levelMultiplier * difficultyMultiplier)

/-- Difficulty selector from missionsStore: statLevel is the stat total
divided by 30, and the two conditions of each tier are OR combined. -/
def selectDifficulty (userLevel : Int) (stats : Stats) : Difficulty :=
  let totalStats : Nat := stats.strength + stats.intelligence + stats.motivation
  let statLevel : ℚ := (totalStats : ℚ) / 30
  if userLevel ≤ 3 ∨ statLevel < 0.5 then .easy
  else if userLevel ≤ 7 ∨ statLevel < 1.5 then .medium
  else .hard

/-- A wall-clock instant, recording the two observations the gate makes of
a Date value: epoch milliseconds and the local hour-of-day. -/
structure DateTime where
  millis : Int
  hour : Int
  deriving DecidableEq

/-- The schedule fields read by the availability gate. -/
structure Schedule where
  id : Nat
  is_active : Bool
  start_date : Int
  end_date : Option Int
  deriving DecidableEq

/-- Body of the lambda inside checkScheduleAvailability: does one schedule
cover the current time. -/
def scheduleCoversNow (now : DateTime) (schedule : Schedule) : Bool :=
  if !schedule.is_active then false
  else if decide (now.millis < schedule.start_date) ||
      schedule.end_date.elim false (fun endDate => decide (endDate < now.millis)) then false
  else decide (8 ≤ now.hour) && decide (now.hour ≤ 20)

/-- Schedule availability gate from missionsStore: some schedule is active,
date-in-range, and the current hour lies in the fixed 8 to 20 window. -/
def checkScheduleAvailability (schedules : List Schedule) (now : DateTime) : Bool :=
  schedules.any (scheduleCoversNow now)

/-- One entry of the static template catalog in getMissionTemplates. -/
structure MissionTemplate where
  title : String
  description : String
  type : String
  deriving DecidableEq

/-- The static per-category template catalog from missionsStore. -/
def getMissionTemplates (category : Category) : List MissionTemplate :=
  match category with
  | .sport =>
    [⟨"Morning Run", "Complete a 30-minute run", "timed"⟩,
     ⟨"Strength Training", "Do 3 sets of push-ups and squats", "repetition"⟩,
     ⟨"Yoga Session", "Practice yoga for 20 minutes", "timed"⟩,
     ⟨"Cardio Workout", "Complete 45 minutes of cardio exercise", "timed"⟩,
     ⟨"Skill Building", "Learn a new exercise technique", "skill"⟩]
  | .studies =>
    [⟨"Reading Session", "Read for 45 minutes", "timed"⟩,
     ⟨"Practice Problems", "Solve 20 math problems", "repetition"⟩,
     ⟨"Language Learning", "Study vocabulary for 30 minutes", "timed"⟩,
     ⟨"Research Project", "Work on research for 1 hour", "timed"⟩,
     ⟨"Skill Practice", "Practice a new study technique", "skill"⟩]
  | .routine =>
    [⟨"Meal Prep", "Prepare healthy meals for the day", "task"⟩,
     ⟨"Cleaning Routine", "Clean your living space for 30 minutes", "timed"⟩,
     ⟨"Meditation", "Meditate for 15 minutes", "timed"⟩,
     ⟨"Journaling", "Write in your journal for 20 minutes", "timed"⟩,
     ⟨"Habit Building", "Practice a new daily habit", "skill"⟩]

/-- Status values of an objective. -/
inductive ObjectiveStatus
  | active
  | completed
  | paused
  deriving DecidableEq

/-- The objective fields touched by the objectives store operations. -/
structure Objective where
  id : Nat
  current_value : Int
  target_value : Int
  status : ObjectiveStatus
  deriving DecidableEq

/-- A mission creation request as assembled by generateDailyMissions. The
deadline is the date-only part of an epoch-millisecond timestamp. -/
structure CreateMissionInput where
  title : String
  description : String
  category : Category
  difficulty : Difficulty
  xp_reward : Int
  deadline : Int
  deriving DecidableEq

/-- Date-only part of an epoch-millisecond timestamp, as the UTC day index:
the result of new Date(t).toISOString().split("T")[0], with one calendar
day per value. -/
def isoDate (t : Int) : Int :=
  Int.fdiv t 86400000

/-- Mission generation orchestrator from missionsStore. The random template
draw Math.floor(Math.random() * templates.length) is modelled by the pick
parameter reduced modulo the catalog length. Returns the list of creation
requests the code submits; when the gate is false it returns none and
raises no error. -/
def generateDailyMissions (profile : UserProfile) (objectives : List Objective)
    (schedules : List Schedule) (now : DateTime) (pick : Category → Nat) :
    List CreateMissionInput :=
  if !checkScheduleAvailability schedules now then []
  else
    [Category.sport, Category.studies, Category.routine].map fun category =>
      let templates := getMissionTemplates category
      let randomTemplate := templates.getD (pick category % templates.length) ⟨"", "", ""⟩
      let difficulty := selectDifficulty (profile.level : Int) profile.stats
      let xpReward := getXPReward difficulty (profile.level : Int)
      { title := randomTemplate.title
        description := randomTemplate.description
        category := category
        difficulty := difficulty
        xp_reward := xpReward
        deadline := isoDate (now.millis + 24 * 60 * 60 * 1000) }

/-- The update record passed to updateProfile by addXP: each field is
present exactly when the corresponding branch of addXP includes it. -/
structure ProfileUpdate where
  level : Option Nat := none
  xp : Option Nat := none
  stats : Option Stats := none
  deriving DecidableEq

/-- addXP from the profile store. The random stat pick
statKeys[Math.floor(Math.random() * 3)] is modelled by the r parameter
reduced modulo 3 (0 strength, 1 intelligence, 2 motivation). Returns the
mutated profile together with the single update record sent to
updateProfile. -/
def addXP (profile : UserProfile) (amount : Nat) (r : Nat) : UserProfile × ProfileUpdate :=
  let newXP := profile.xp + amount
  let newLevel := calculateLevel newXP
  if profile.level < newLevel then
    let newStats :=
      match r % 3 with
      | 0 => { profile.stats with strength := profile.stats.strength + 1 }
      | 1 => { profile.stats with intelligence := profile.stats.intelligence + 1 }
      | _ => { profile.stats with motivation := profile.stats.motivation + 1 }
    ({ profile with level := newLevel, xp := newXP, stats := newStats },
     { level := some newLevel, xp := some newXP, stats := some newStats })
  else
    ({ profile with xp := newXP }, { xp := some newXP })

/-- Lifecycle status of a mission. -/
inductive MissionStatus
  | pending
  | in_progress
  | completed
  | failed
  deriving DecidableEq

/-- The mission fields read by completion: identity, reward and status. -/
structure Mission where
  id : Nat
  xp_reward : Nat
  status : MissionStatus
  deriving DecidableEq

/-- Action tag of a mission history row. -/
inductive HistoryAction
  | created
  | started
  | completed
  | failed
  | updated
  deriving DecidableEq

/-- A mission history row as inserted by trackMissionHistory. -/
structure HistoryEntry where
  mission_id : Nat
  action : HistoryAction
  old_status : Option MissionStatus
  new_status : Option MissionStatus
  xp_gained : Nat
  deriving DecidableEq

/-- The client state relevant to mission completion: the mission list, the
profile, and the appended history rows (newest first, as the store keeps
them). -/
structure AppState where
  missions : List Mission
  profile : UserProfile
  history : List HistoryEntry
  deriving DecidableEq

/-- updateMission from missionsStore, specialised to the status updates
markMissionComplete issues: no-op when the id is absent, otherwise rewrite
the mission status and append an updated history row when the status
changed. -/
def updateMission (s : AppState) (id : Nat) (newStatus : MissionStatus) : AppState :=
  match s.missions.find? (fun m => m.id == id) with
  | none => s
  | some mission =>
    let missions := s.missions.map fun m =>
      if m.id == id then { m with status := newStatus } else m
    let s := { s with missions := missions }
    if newStatus ≠ mission.status then
      { s with history := ⟨id, .updated, some mission.status, some newStatus, 0⟩ :: s.history }
    else s

/-- markMissionComplete from missionsStore: look the mission up, set its
status to completed through updateMission, call addXP with its xp_reward,
and append a completed history row. The r parameter feeds the random stat
pick inside addXP. Note the source consults neither the current status
before granting XP nor whether the mission is already terminal. -/
def markMissionComplete (s : AppState) (id : Nat) (r : Nat) : AppState :=
  match s.missions.find? (fun m => m.id == id) with
  | none => s
  | some mission =>
    let s1 := updateMission s id .completed
    let s2 := { s1 with profile := (addXP s1.profile mission.xp_reward r).1 }
    { s2 with
      history := ⟨id, .completed, some mission.status, some .completed, mission.xp_reward⟩ :: s2.history }

/-- handleCompleteMission from components/MissionsDisplay.tsx: it awaits
markMissionComplete and then calls addXP once more with the xp_reward of
the mission as found in the missions list captured before completion. The
r1 and r2 parameters feed the two random stat picks. -/
def handleCompleteMission (s : AppState) (id : Nat) (r1 r2 : Nat) : AppState :=
  let s1 := markMissionComplete s id r1
  let reward := ((s.missions.find? (fun m => m.id == id)).map Mission.xp_reward).getD 0
  { s1 with profile := (addXP s1.profile reward r2).1 }

/-- The update record accepted by updateObjective, restricted to the fields
the embedded state carries; absent fields leave the stored row unchanged. -/
structure UpdateObjectiveInput where
  current_value : Option Int := none
  target_value : Option Int := none
  status : Option ObjectiveStatus := none
  deriving DecidableEq

/-- Application of an update record to one stored objective row, as the
remote store merges a partial update. -/
def applyObjectiveUpdate (obj : Objective) (u : UpdateObjectiveInput) : Objective :=
  { obj with
    current_value := u.current_value.getD obj.current_value
    target_value := u.target_value.getD obj.target_value
    status := u.status.getD obj.status }

/-- updateObjective from objectivesStore: apply the update verbatim to the
rows with the given id. No field is validated or clamped. -/
def updateObjective (objectives : List Objective) (id : Nat)
    (u : UpdateObjectiveInput) : List Objective :=
  objectives.map fun obj => if obj.id == id then applyObjectiveUpdate obj u else obj

/-- incrementProgress from objectivesStore: no-op when the id is absent,
otherwise set current_value to min(current_value + amount, target_value)
through updateObjective. The source default for amount is 1. -/
def incrementProgress (objectives : List Objective) (id : Nat) (amount : Int) : List Objective :=
  match objectives.find? (fun o => o.id == id) with
  | none => objectives
  | some objective =>
    let newValue := min (objective.current_value + amount) objective.target_value
    updateObjective objectives id { current_value := some newValue }

/-- Characterisation of the integer square root by its defining bounds. -/
theorem sqrt_eq_of_bounds (m k : Nat) (h1 : k * k ≤ m) (h2 : m < (k + 1) * (k + 1)) :
    Nat.sqrt m = k := by
  have ha : k ≤ Nat.sqrt m := Nat.le_sqrt.mpr h1
  have hb : Nat.sqrt m < k + 1 := Nat.sqrt_lt.mpr h2
  omega

/-- Concrete value of the leveling function at 102 XP. -/
theorem calculateLevel_at_102 : calculateLevel 102 = 2 := by
  show Nat.sqrt (102 / 100) + 1 = 2
  rw [show (102 : Nat) / 100 = 1 from rfl, sqrt_eq_of_bounds 1 1 (by omega) (by omega)]

/-- Concrete value of the leveling function at 204 XP. -/
theorem calculateLevel_at_204 : calculateLevel 204 = 2 := by
  show Nat.sqrt (204 / 100) + 1 = 2
  rw [show (204 : Nat) / 100 = 2 from rfl, sqrt_eq_of_bounds 2 1 (by omega) (by omega)]

/-- The floor of the real square root of xp / 100 equals the integer square
root of the natural quotient xp / 100. -/
theorem floor_sqrt_div_100 (n : Nat) :
    ⌊Real.sqrt ((n : ℝ) / 100)⌋ = (Nat.sqrt (n / 100) : ℤ) := by
  rw [Int.floor_eq_iff]
  constructor
  · rw [show (((Nat.sqrt (n / 100) : ℤ)) : ℝ) = ((Nat.sqrt (n / 100) : ℕ) : ℝ) by push_cast; ring]
    rw [Real.le_sqrt (by positivity) (by positivity)]
    calc ((Nat.sqrt (n / 100) : ℕ) : ℝ) ^ 2
        = ((Nat.sqrt (n / 100) * Nat.sqrt (n / 100) : ℕ) : ℝ) := by push_cast; ring
      _ ≤ ((n / 100 : ℕ) : ℝ) := by exact_mod_cast Nat.sqrt_le (n / 100)
      _ ≤ (n : ℝ) / 100 := Nat.cast_div_le
  · have hlt : n < ((Nat.sqrt (n / 100) + 1) * (Nat.sqrt (n / 100) + 1)) * 100 :=
      (Nat.div_lt_iff_lt_mul (by norm_num)).mp (Nat.lt_succ_sqrt (n / 100))
    have hpos : (0 : ℝ) < ((Nat.sqrt (n / 100) : ℤ) : ℝ) + 1 := by positivity
    have hltR : (n : ℝ) < ((Nat.sqrt (n / 100) : ℝ) + 1) * ((Nat.sqrt (n / 100) : ℝ) + 1) * 100 := by
      exact_mod_cast hlt
    rw [Real.sqrt_lt' hpos, div_lt_iff₀ (by norm_num : (0 : ℝ) < 100)]
    push_cast
    nlinarith [hltR]

/-- The leveling function is monotone non-decreasing. -/
theorem calculateLevel_mono : Monotone calculateLevel := by
  intro a b hab
  have : Nat.sqrt (a / 100) ≤ Nat.sqrt (b / 100) :=
    Nat.sqrt_le_sqrt (Nat.div_le_div_right hab)
  simpa [calculateLevel] using Nat.add_le_add_right this 1

/-- C2. calculateLevel implements level = floor(sqrt(xp / 100)) + 1 over
the reals, is monotone non-decreasing in xp, and maps 0 to 1, 100 to 2 and
400 to 3. -/
theorem calculateLevel_correct :
    (∀ xp : Nat, (calculateLevel xp : ℤ) = ⌊Real.sqrt ((xp : ℝ) / 100)⌋ + 1) ∧
    Monotone calculateLevel ∧
    calculateLevel 0 = 1 ∧ calculateLevel 100 = 2 ∧ calculateLevel 400 = 3 := by
  refine ⟨fun xp => ?_, calculateLevel_mono, by simp [calculateLevel], ?_, ?_⟩
  · rw [floor_sqrt_div_100]
    simp [calculateLevel]
  · show Nat.sqrt (100 / 100) + 1 = 2
    rw [show (100 : Nat) / 100 = 1 from rfl, sqrt_eq_of_bounds 1 1 (by omega) (by omega)]
  · show Nat.sqrt (400 / 100) + 1 = 3
    rw [show (400 : Nat) / 100 = 4 from rfl, sqrt_eq_of_bounds 4 2 (by omega) (by omega)]

/-- C3. getXPReward implements floor(base * levelMultiplier *
difficultyMultiplier) with bases easy 10, medium 26, hard 51, level
multiplier 1 + (level - 1) / 10 and difficulty multipliers 1, 3/2, 2; at
level 1 the easy reward is 10 and the hard reward is 102. -/
theorem getXPReward_correct :
    (∀ (d : Difficulty) (level : Int), 1 ≤ level →
      getXPReward d level =
        Int.floor ((match d with | .easy => (10 : ℚ) | .medium => 26 | .hard => 51) *
          (1 + ((level : ℚ) - 1) * (1 / 10)) *
          (match d with | .easy => (1 : ℚ) | .medium => 3 / 2 | .hard => 2))) ∧
    getXPReward .easy 1 = 10 ∧ getXPReward .hard 1 = 102 := by
  refine ⟨fun d level _ => ?_, ?_, ?_⟩
  · cases d <;> · simp only [getXPReward, baseXP, getDifficultyMultiplier]
                  norm_num
  · simp only [getXPReward, baseXP, getDifficultyMultiplier]
    norm_num
  · simp only [getXPReward, baseXP, getDifficultyMultiplier]
    norm_num

/-- Witness for C3 at difficulty hard and level 1. -/
theorem getXPReward_correct_witness :
    (1 : Int) ≤ 1 ∧
    getXPReward .hard 1 = Int.floor ((51 : ℚ) * (1 + (((1 : Int) : ℚ) - 1) * (1 / 10)) * 2) :=
  ⟨le_refl 1, getXPReward_correct.1 .hard 1 (le_refl 1)⟩

/-- C4. selectDifficulty follows the OR based rule evaluated in order on
statLevel = (strength + intelligence + motivation) / 30, and the two
fractional thresholds amount to stat totals below 15 and below 45. -/
theorem selectDifficulty_correct (level : Int) (stats : Stats) :
    (selectDifficulty level stats =
      if level ≤ 3 ∨ ((stats.strength + stats.intelligence + stats.motivation : Nat) : ℚ) / 30 < 0.5
        then Difficulty.easy
      else if level ≤ 7 ∨ ((stats.strength + stats.intelligence + stats.motivation : Nat) : ℚ) / 30 < 1.5
        then Difficulty.medium
      else Difficulty.hard) ∧
    (((stats.strength + stats.intelligence + stats.motivation : Nat) : ℚ) / 30 < 0.5 ↔
      stats.strength + stats.intelligence + stats.motivation < 15) ∧
    (((stats.strength + stats.intelligence + stats.motivation : Nat) : ℚ) / 30 < 1.5 ↔
      stats.strength + stats.intelligence + stats.motivation < 45) := by
  refine ⟨rfl, ?_, ?_⟩
  · rw [div_lt_iff₀ (by norm_num : (0 : ℚ) < 30)]
    rw [show (0.5 : ℚ) * 30 = ((15 : Nat) : ℚ) by norm_num]
    exact_mod_cast Iff.rfl
  · rw [div_lt_iff₀ (by norm_num : (0 : ℚ) < 30)]
    rw [show (1.5 : ℚ) * 30 = ((45 : Nat) : ℚ) by norm_num]
    exact_mod_cast Iff.rfl

/-- Counterexample for C5: at level 10 with stats 10, 10, 10 the stat
level is exactly 1, which is below the 1.5 threshold, so the selector
returns medium and not hard. -/
theorem selectDifficulty_ten_not_hard :
    selectDifficulty 10 ⟨10, 10, 10⟩ = Difficulty.medium ∧
    selectDifficulty 10 ⟨10, 10, 10⟩ ≠ Difficulty.hard := by
  have h : selectDifficulty 10 ⟨10, 10, 10⟩ = Difficulty.medium := by
    simp only [selectDifficulty]
    rw [if_neg (by norm_num), if_pos (by norm_num)]
  exact ⟨h, by rw [h]; intro hc; cases hc⟩

/-- C5 amended. selectDifficulty(2, {0,0,0}) = easy, and
selectDifficulty(10, {10,10,10}) = medium (the spec expected hard, but
statLevel = 1 < 1.5 selects medium). -/
theorem selectDifficulty_examples :
    selectDifficulty 2 ⟨0, 0, 0⟩ = Difficulty.easy ∧
    selectDifficulty 10 ⟨10, 10, 10⟩ = Difficulty.medium := by
  constructor
  · simp only [selectDifficulty]
    rw [if_pos (by norm_num)]
  · simp only [selectDifficulty]
    rw [if_neg (by norm_num), if_pos (by norm_num)]

/-- One schedule passes the gate predicate exactly when it is active, its
date range contains now, and the hour lies in the 8 to 20 window. -/
theorem scheduleCoversNow_iff (now : DateTime) (s : Schedule) :
    scheduleCoversNow now s = true ↔
      s.is_active = true ∧ s.start_date ≤ now.millis ∧
      (s.end_date = none ∨ ∃ e, s.end_date = some e ∧ now.millis ≤ e) ∧
      8 ≤ now.hour ∧ now.hour ≤ 20 := by
  cases hA : s.is_active <;> cases hE : s.end_date
  all_goals simp [scheduleCoversNow, hA, hE, not_lt, imp_and]
  all_goals omega

/-- C6. The availability gate is true iff some schedule is active with now
at or after its start date, its end date absent or at or after now, and
the hour-of-day within 8 to 20 inclusive; in particular it is false when
every schedule is inactive, and false outside the hour window. -/
theorem checkScheduleAvailability_correct (schedules : List Schedule) (now : DateTime) :
    (checkScheduleAvailability schedules now = true ↔
      ∃ s ∈ schedules, s.is_active = true ∧ s.start_date ≤ now.millis ∧
        (s.end_date = none ∨ ∃ e, s.end_date = some e ∧ now.millis ≤ e) ∧
        8 ≤ now.hour ∧ now.hour ≤ 20) ∧
    ((∀ s ∈ schedules, s.is_active = false) → checkScheduleAvailability schedules now = false) ∧
    ((now.hour < 8 ∨ 20 < now.hour) → checkScheduleAvailability schedules now = false) := by
  have hmain : checkScheduleAvailability schedules now = true ↔
      ∃ s ∈ schedules, s.is_active = true ∧ s.start_date ≤ now.millis ∧
        (s.end_date = none ∨ ∃ e, s.end_date = some e ∧ now.millis ≤ e) ∧
        8 ≤ now.hour ∧ now.hour ≤ 20 := by
    simp [checkScheduleAvailability, List.any_eq_true, scheduleCoversNow_iff]
  refine ⟨hmain, ?_, ?_⟩
  · intro hall
    rw [Bool.eq_false_iff]
    intro hcontra
    obtain ⟨s, hs, hact, -⟩ := hmain.mp hcontra
    rw [hall s hs] at hact
    cases hact
  · intro hh
    rw [Bool.eq_false_iff]
    intro hcontra
    obtain ⟨s, hs, -, -, h8, h20⟩ := hmain.mp hcontra
    omega

/-- Witness for C6: an active schedule in range still fails the gate at
hour 21. -/
theorem checkScheduleAvailability_correct_witness :
    ((21 : Int) < 8 ∨ (20 : Int) < 21) ∧
    checkScheduleAvailability [⟨1, true, 0, none⟩] ⟨1000, 21⟩ = false :=
  ⟨Or.inr (by norm_num),
   (checkScheduleAvailability_correct [⟨1, true, 0, none⟩] ⟨1000, 21⟩).2.2
     (Or.inr (by norm_num))⟩

/-- An in-range getD hit is a member of the list. -/
theorem getD_mem {α : Type} (l : List α) (i : Nat) (d : α) (h : i < l.length) :
    l.getD i d ∈ l := by
  rw [List.getD_eq_getElem l d h]
  exact List.getElem_mem h

/-- C7. When the gate is false, generateDailyMissions emits no creation
request; when it is true, it emits exactly one request per category in the
order sport, studies, routine, each built from a template of that category
catalog, with difficulty selectDifficulty(level, stats), reward
getXPReward(difficulty, level) and the date-only deadline of now plus 24
hours. -/
theorem generateDailyMissions_correct (profile : UserProfile) (objectives : List Objective)
    (schedules : List Schedule) (now : DateTime) (pick : Category → Nat) :
    (checkScheduleAvailability schedules now = false →
      generateDailyMissions profile objectives schedules now pick = []) ∧
    (checkScheduleAvailability schedules now = true →
      (generateDailyMissions profile objectives schedules now pick).map
          CreateMissionInput.category = [Category.sport, Category.studies, Category.routine] ∧
      ∀ m ∈ generateDailyMissions profile objectives schedules now pick,
        (∃ t ∈ getMissionTemplates m.category,
            m.title = t.title ∧ m.description = t.description) ∧
        m.difficulty = selectDifficulty (profile.level : Int) profile.stats ∧
        m.xp_reward = getXPReward (selectDifficulty (profile.level : Int) profile.stats)
            (profile.level : Int) ∧
        m.deadline = isoDate (now.millis + 24 * 60 * 60 * 1000)) := by
  constructor
  · intro h
    simp [generateDailyMissions, h]
  · intro h
    refine ⟨by simp [generateDailyMissions, h], ?_⟩
    intro m hm
    simp only [generateDailyMissions, h, Bool.not_true, Bool.false_eq_true, if_false,
      List.map_cons, List.map_nil, List.mem_cons, List.not_mem_nil, or_false] at hm
    rcases hm with rfl | rfl | rfl <;>
      exact ⟨⟨_, getD_mem _ _ _ (Nat.mod_lt _ (Nat.succ_pos 4)), rfl, rfl⟩, rfl, rfl, rfl⟩

/-- Witness for C7: an active schedule at hour 10 generates the three
category requests. -/
theorem generateDailyMissions_correct_witness :
    checkScheduleAvailability [⟨1, true, 0, none⟩] ⟨0, 10⟩ = true ∧
    (generateDailyMissions ⟨1, 0, ⟨0, 0, 0⟩⟩ [] [⟨1, true, 0, none⟩] ⟨0, 10⟩
        (fun _ => 0)).map CreateMissionInput.category =
      [Category.sport, Category.studies, Category.routine] :=
  ⟨rfl,
   ((generateDailyMissions_correct ⟨1, 0, ⟨0, 0, 0⟩⟩ [] [⟨1, true, 0, none⟩] ⟨0, 10⟩
       (fun _ => 0)).2 rfl).1⟩

/-- C8. addXP leaves the profile with level equal to calculateLevel of its
xp whenever the invariant held before the call, and the single update it
sends carries level, xp and stats together whenever it carries more than
xp. -/
theorem addXP_preserves_level_invariant (profile : UserProfile) (amount r : Nat)
    (h : profile.level = calculateLevel profile.xp) :
    (addXP profile amount r).1.level = calculateLevel ((addXP profile amount r).1.xp) ∧
    ((addXP profile amount r).2.level.isSome ∨ (addXP profile amount r).2.stats.isSome →
      (addXP profile amount r).2.level.isSome ∧ (addXP profile amount r).2.xp.isSome ∧
      (addXP profile amount r).2.stats.isSome) := by
  have hmono : calculateLevel profile.xp ≤ calculateLevel (profile.xp + amount) :=
    calculateLevel_mono (Nat.le_add_right _ _)
  by_cases hlt : profile.level < calculateLevel (profile.xp + amount)
  · simp [addXP, hlt]
  · have heq : calculateLevel (profile.xp + amount) = profile.level :=
      le_antisymm (not_lt.mp hlt) (h ▸ hmono)
    simp [addXP, hlt, heq]

/-- Witness for C8: a profile at level 1 with 0 xp satisfies the invariant
and keeps it across a 102 XP grant. -/
theorem addXP_preserves_level_invariant_witness :
    (1 : Nat) = calculateLevel 0 ∧
    (addXP ⟨1, 0, ⟨0, 0, 0⟩⟩ 102 0).1.level =
      calculateLevel ((addXP ⟨1, 0, ⟨0, 0, 0⟩⟩ 102 0).1.xp) :=
  ⟨by simp [calculateLevel],
   (addXP_preserves_level_invariant ⟨1, 0, ⟨0, 0, 0⟩⟩ 102 0 (by simp [calculateLevel])).1⟩

/-- C9. addXP always sets xp to the old xp plus the amount; on a level-up
the stat selected by the random index is incremented by exactly one with
the other two unchanged, and with no level-up the stats and level are
unchanged. -/
theorem addXP_levelup_stat_frame (profile : UserProfile) (amount r : Nat) (hr : r < 3) :
    (addXP profile amount r).1.xp = profile.xp + amount ∧
    (profile.level < calculateLevel (profile.xp + amount) →
      ((r = 0 → (addXP profile amount r).1.stats =
          ⟨profile.stats.strength + 1, profile.stats.intelligence, profile.stats.motivation⟩) ∧
       (r = 1 → (addXP profile amount r).1.stats =
          ⟨profile.stats.strength, profile.stats.intelligence + 1, profile.stats.motivation⟩) ∧
       (r = 2 → (addXP profile amount r).1.stats =
          ⟨profile.stats.strength, profile.stats.intelligence, profile.stats.motivation + 1⟩))) ∧
    (¬ profile.level < calculateLevel (profile.xp + amount) →
      (addXP profile amount r).1.stats = profile.stats ∧
      (addXP profile amount r).1.level = profile.level) := by
  by_cases hlt : profile.level < calculateLevel (profile.xp + amount)
  · refine ⟨by simp [addXP, hlt], fun _ => ⟨?_, ?_, ?_⟩, fun hc => absurd hlt hc⟩
    · rintro rfl
      simp [addXP, hlt]
    · rintro rfl
      simp [addXP, hlt]
    · rintro rfl
      simp [addXP, hlt]
  · exact ⟨by simp [addXP, hlt], fun hc => absurd hc hlt, fun _ => by simp [addXP, hlt]⟩

/-- Witness for C9: with random index 1, the 102 XP level-up increments
only intelligence. -/
theorem addXP_levelup_stat_frame_witness :
    (1 : Nat) < 3 ∧ (addXP ⟨1, 0, ⟨2, 3, 4⟩⟩ 102 1).1.stats = ⟨2, 4, 4⟩ :=
  ⟨by norm_num,
   ((addXP_levelup_stat_frame ⟨1, 0, ⟨2, 3, 4⟩⟩ 102 1 (by norm_num)).2.1
       (by norm_num [calculateLevel_at_102])).2.1 rfl⟩

/-- C1 evidence. On a state with one pending mission worth 102 XP and a
fresh level 1 profile: a first markMissionComplete leaves the mission
completed with 102 XP granted, a second markMissionComplete on the now
terminal mission grants the reward again for 204 XP, and a single
handleCompleteMission click also reaches 204 XP because the component adds
the reward a second time after markMissionComplete already granted it. -/
theorem completeMission_double_grants_xp :
    (markMissionComplete ⟨[⟨1, 102, .pending⟩], ⟨1, 0, ⟨0, 0, 0⟩⟩, []⟩ 1 0).missions =
        [⟨1, 102, .completed⟩] ∧
    (markMissionComplete ⟨[⟨1, 102, .pending⟩], ⟨1, 0, ⟨0, 0, 0⟩⟩, []⟩ 1 0).profile.xp = 102 ∧
    (markMissionComplete
        (markMissionComplete ⟨[⟨1, 102, .pending⟩], ⟨1, 0, ⟨0, 0, 0⟩⟩, []⟩ 1 0) 1 0).profile.xp =
      204 ∧
    (handleCompleteMission ⟨[⟨1, 102, .pending⟩], ⟨1, 0, ⟨0, 0, 0⟩⟩, []⟩ 1 0 0).profile.xp = 204 := by
  simp [markMissionComplete, handleCompleteMission, updateMission, addXP,
    List.find?, calculateLevel_at_102, calculateLevel_at_204]

/-- Counterexample for C10: incrementProgress with amount -1 drives
current_value below 0; updateObjective stores an out-of-range
current_value verbatim; and with duplicated ids incrementProgress pushes a
row past its own target_value even for a positive amount. -/
theorem objective_invariant_counterexample :
    (∃ o ∈ incrementProgress [⟨1, 0, 5, .active⟩] 1 (-1), o.current_value < 0) ∧
    (∃ o ∈ updateObjective [⟨1, 0, 5, .active⟩] 1 { current_value := some 6 },
        o.target_value < o.current_value) ∧
    (∃ o ∈ incrementProgress [⟨1, 0, 5, .active⟩, ⟨1, 0, 0, .active⟩] 1 3,
        o.target_value < o.current_value) := by
  decide

/-- C10 amended. On objective lists with pairwise distinct ids whose rows
satisfy 0 ≤ current_value ≤ target_value, incrementProgress with a
non-negative amount preserves the invariant and sets the targeted row to
min(current_value + amount, target_value), clamping at target_value. -/
theorem incrementProgress_clamped_invariant (objectives : List Objective) (id : Nat)
    (amount : Int) (hids : (objectives.map Objective.id).Nodup)
    (hinv : ∀ o ∈ objectives, 0 ≤ o.current_value ∧ o.current_value ≤ o.target_value)
    (hamt : 0 ≤ amount) :
    (∀ o ∈ incrementProgress objectives id amount,
        0 ≤ o.current_value ∧ o.current_value ≤ o.target_value) ∧
    (∀ o, objectives.find? (fun x => x.id == id) = some o →
      ∀ o' ∈ incrementProgress objectives id amount, o'.id = id →
        o'.current_value = min (o.current_value + amount) o.target_value) := by
  cases hf : objectives.find? (fun o => o.id == id) with
  | none =>
    refine ⟨?_, ?_⟩
    · intro o ho
      rw [incrementProgress, hf] at ho
      exact hinv o ho
    · intro o hfo
      cases hfo
  | some o0 =>
    have ho0_mem : o0 ∈ objectives := List.mem_of_find?_eq_some hf
    have ho0_id : o0.id = id := by
      have := List.find?_some hf
      simpa using this
    have hres : incrementProgress objectives id amount =
        updateObjective objectives id
          { current_value := some (min (o0.current_value + amount) o0.target_value) } := by
      rw [incrementProgress, hf]
    refine ⟨?_, ?_⟩
    · intro o' ho'
      rw [hres, updateObjective] at ho'
      obtain ⟨e, he_mem, he_eq⟩ := List.mem_map.mp ho'
      by_cases hid : (e.id == id) = true
      · have he0 : e = o0 := by
          refine List.inj_on_of_nodup_map hids he_mem ho0_mem ?_
          show e.id = o0.id
          rw [ho0_id]
          exact eq_of_beq hid
        rw [hid] at he_eq
        simp only [if_true] at he_eq
        subst he_eq
        subst he0
        have hI := hinv e he_mem
        constructor
        · simp only [applyObjectiveUpdate, Option.getD_some]
          exact le_min (by omega) (by omega)
        · simp only [applyObjectiveUpdate, Option.getD_some, Option.getD_none]
          exact min_le_right _ _
      · rw [Bool.not_eq_true] at hid
        rw [hid] at he_eq
        simp only [Bool.false_eq_true, if_false] at he_eq
        subst he_eq
        exact hinv e he_mem
    · intro o hfo o' ho' hid'
      injection hfo with hfo
      subst hfo
      rw [hres, updateObjective] at ho'
      obtain ⟨e, he_mem, he_eq⟩ := List.mem_map.mp ho'
      by_cases hid : (e.id == id) = true
      · rw [hid] at he_eq
        simp only [if_true] at he_eq
        subst he_eq
        simp [applyObjectiveUpdate]
      · rw [Bool.not_eq_true] at hid
        rw [hid] at he_eq
        simp only [Bool.false_eq_true, if_false] at he_eq
        subst he_eq
        rw [hid'] at hid
        simp at hid

/-- Witness for C10 amended: incrementing 2 of 5 by 4 clamps at 5 and
keeps the invariant. -/
theorem incrementProgress_clamped_invariant_witness :
    (0 : Int) ≤ 4 ∧
    ∀ o ∈ incrementProgress [⟨1, 2, 5, .active⟩] 1 4,
      0 ≤ o.current_value ∧ o.current_value ≤ o.target_value :=
  ⟨by norm_num,
   (incrementProgress_clamped_invariant [⟨1, 2, 5, .active⟩] 1 4 (by decide) (by decide)
       (by norm_num)).1⟩

end SoloLeveling
